import Mathlib

/-!
Verification development for the `logup` service (`src/index.js`): a small
Express app that accepts a file plus a Bugzilla bug id, verifies the bug
exists, stores the file under a per-bug folder on a shared Google Drive,
and posts a confirmation comment back to the bug.

The external world (Bugzilla HTTP responses, the Drive contents, the
resumable-upload endpoint responses) is modelled by an explicit per-request
oracle; the functions of `index.js` are shallowly embedded as pure Lean
functions over that oracle, and the `/upload` route handler is embedded as
a function that also returns the trace of outward calls it performs.
-/

set_option autoImplicit false

namespace Logup

/-- Outcome of a single `fetch` call as seen by the JavaScript code: either
an HTTP response with some status code, or a network failure that rejects
the promise (landing in the `.catch` branch). -/
inductive FetchOutcome where
  | response (status : Nat)
  | networkFailure
  deriving DecidableEq, Repr

/-- Model of `fetch`'s `response.ok`: status in the inclusive range
200..299. -/
def fetchOk (status : Nat) : Bool :=
  200 ≤ status && status ≤ 299

/-- Result object returned by `checkBugIdExists` in `index.js`:
`{ error: bool, message?: string }`. -/
structure CheckResult where
  error : Bool
  message : String
  deriving DecidableEq, Repr

/-- Embedding of `checkBugIdExists` (src/index.js lines 122-135): fetches
the bug-detail endpoint; a non-ok response yields
`{error: true, message: "Bug number does not appear to exist"}`, a network
failure yields `{error: true, message: "Unknown"}`, an ok response yields
`{error: false}` (no message field; modelled as `""`). -/
def checkBugIdExists : FetchOutcome → CheckResult
  | FetchOutcome.response s =>
      if fetchOk s then { error := false, message := "" }
      else { error := true, message := "Bug number does not appear to exist" }
  | FetchOutcome.networkFailure => { error := true, message := "Unknown" }

/-- The JSON payload `{ comment: ... }` built by `createBugzillaComment`. -/
structure CommentRequest where
  comment : String
  deriving DecidableEq, Repr

/-- Embedding of `createBugzillaComment` (src/index.js lines 96-115): builds
the fixed comment payload, issues the POST, and resolves to
`response.status == 201`; any rejection (network failure) is caught and
resolves to `false`. Returns the request payload paired with the boolean
the promise resolves to. -/
def createBugzillaComment (outcome : FetchOutcome) : CommentRequest × Bool :=
  ({ comment := "A log has been successfully uploaded to the team's storage" },
   match outcome with
   | FetchOutcome.response s => s == 201
   | FetchOutcome.networkFailure => false)

/-- A file entry on the shared Drive, as the code reads and writes it:
`id` and `name` come back from `files.list`; `mimeType` and `parents` are
set on creation. -/
structure DriveFile where
  id : String
  name : String
  mimeType : String
  parents : List String
  deriving DecidableEq, Repr

/-- The folder mime type string used in the `files.list` query and in the
metadata of `createFolder`. -/
def folderMime : String := "application/vnd.google-apps.folder"

/-- Contents of the shared drive (the `corpora: 'drive'` scope that the
`files.list` call in `getFolderId` queries), plus a counter from which the
store mints fresh ids. -/
structure DriveState where
  files : List DriveFile
  nextId : Nat
  deriving DecidableEq, Repr

/-- The id the store assigns to the next created file. The store never
assigns the empty string as an id. -/
def freshId (st : DriveState) : String :=
  "drive-id-" ++ toString st.nextId

/-- The `files` array returned by the `drive.files.list` call in
`getFolderId`: the query restricts to entries whose
`mimeType='application/vnd.google-apps.folder'`. -/
def listFolders (st : DriveState) : List DriveFile :=
  st.files.filter (fun f => f.mimeType == folderMime)

/-- Embedding of `getFolderId` (src/index.js lines 46-69): lists the
folder-type entries of the drive and scans them in order, returning the id
of the first whose `name` equals (`==`, exact string comparison) the
requested name, or `""` when none matches. -/
def getFolderId (st : DriveState) (name : String) : String :=
  match (listFolders st).find? (fun f => f.name == name) with
  | some f => f.id
  | none => ""

/-- The `drive.files.create` call inside `createFolder`: appends a new
folder entry whose metadata is `{name, mimeType: folder, parents: [DRIVE_ID]}`
and returns the store-assigned id (`folder.data.id`). `root` is `DRIVE_ID`. -/
def driveCreate (root : String) (st : DriveState) (name : String) :
    DriveState × String :=
  let f : DriveFile :=
    { id := freshId st, name := name, mimeType := folderMime, parents := [root] }
  ({ files := st.files ++ [f], nextId := st.nextId + 1 }, f.id)

/-- Embedding of `createFolder` (src/index.js lines 72-93): looks the name
up with `getFolderId`; if the returned id is not `""` the existing id is
returned and nothing is created, otherwise a new folder with parent
`DRIVE_ID` is created and its new id returned. Returns the resulting drive
state paired with the folder id. -/
def createFolder (root : String) (st : DriveState) (name : String) :
    DriveState × String :=
  let folderId := getFolderId st name
  if folderId ≠ "" then (st, folderId)
  else driveCreate root st name

/-- An HTTP response as the two `https.request` callbacks in `index.js`
observe it: status code, status message, the `location` header, and the
accumulated body chunks. -/
structure HttpResponse where
  statusCode : Nat
  statusMessage : String
  location : String
  body : String
  deriving DecidableEq, Repr

/-- Outcome of one `https.request`: a response, or a transport error
delivered via `req.on('error')`. -/
inductive RequestOutcome where
  | response (resp : HttpResponse)
  | transportError (msg : String)
  deriving DecidableEq, Repr

/-- The `res.statusCode >= 200 && res.statusCode < 300` test used by both
`createResumableUpload` and `uploadFile`. -/
def status2xx (s : Nat) : Bool :=
  200 ≤ s && s < 300

/-- Embedding of the response handling of `createResumableUpload`
(src/index.js lines 137-176): on a 2xx response the promise resolves with
`res.headers.location` (the session URL); on a non-2xx response it rejects
with an `Error` whose message interpolates the status code, the status
message and the accumulated body; a transport error rejects with that
error. A rejection is modelled as `Except.error` carrying the message. -/
def createResumableUpload (outcome : RequestOutcome) : Except String String :=
  match outcome with
  | RequestOutcome.response resp =>
      if status2xx resp.statusCode then
        Except.ok resp.location
      else
        Except.error ("Failed to create resumable upload session: "
          ++ toString resp.statusCode ++ " " ++ resp.statusMessage ++ " "
          ++ resp.body)
  | RequestOutcome.transportError msg => Except.error msg

/-- Embedding of the response handling of `uploadFile` (src/index.js lines
191-224): after the body has been accumulated, a 2xx response resolves with
`JSON.parse(data)` — the final file descriptor, represented here by the raw
body text it is parsed from (`JSON.parse` is the external JSON library) —
and a non-2xx response rejects with an `Error` whose message interpolates
only the status code and the status message; a transport error rejects with
that error. -/
def uploadFile (outcome : RequestOutcome) : Except String String :=
  match outcome with
  | RequestOutcome.response resp =>
      if status2xx resp.statusCode then
        Except.ok resp.body
      else
        Except.error ("Failed to upload file: " ++ toString resp.statusCode
          ++ " " ++ resp.statusMessage)
  | RequestOutcome.transportError msg => Except.error msg

/-- Substring containment on strings, via infix containment on the
underlying character lists. -/
def strContains (hay needle : String) : Prop :=
  List.IsInfix needle.data hay.data

instance (hay needle : String) : Decidable (strContains hay needle) :=
  inferInstanceAs (Decidable (List.IsInfix needle.data hay.data))

/-- One outward call performed while handling a `POST /upload` request. -/
inductive Event where
  | trackerCheck (bugid : String)
  | driveList
  | driveCreateFolder (name : String)
  | sessionInit (fileName : String) (parentFolder : String)
  | byteStream (url : String)
  | trackerComment (bugid : String)
  deriving DecidableEq, Repr

/-- Storage-side effects: every call against the Drive store (folder list,
folder create, session initiation, byte streaming), as opposed to the
tracker calls. -/
def isStorageEffect : Event → Bool
  | Event.trackerCheck _ => false
  | Event.driveList => true
  | Event.driveCreateFolder _ => true
  | Event.sessionInit _ _ => true
  | Event.byteStream _ => true
  | Event.trackerComment _ => false

/-- Is this event the byte-streaming call to a session URL? -/
def isByteStream : Event → Bool
  | Event.byteStream _ => true
  | _ => false

/-- The outward calls performed by one run of `createFolder`: one
`files.list` (via `getFolderId`), plus one `files.create` when no folder
matched. -/
def createFolderEvents (st : DriveState) (name : String) : List Event :=
  if getFolderId st name ≠ "" then [Event.driveList]
  else [Event.driveList, Event.driveCreateFolder name]

/-- Per-request oracle: the outcomes the external world hands to each call
that one `POST /upload` request can perform. `storeFailure` models the
Drive folder calls throwing (transport/auth failure) instead of operating
on `driveState`. -/
structure Oracle where
  checkOutcome : FetchOutcome
  driveState : DriveState
  storeFailure : Option String
  sessionOutcome : RequestOutcome
  uploadOutcome : RequestOutcome
  commentOutcome : FetchOutcome
  deriving Repr

/-- The multipart form data of one `POST /upload` request, as the handler
reads it: whether `req.file` is present, `req.body.bugid`, and the file's
name, size and mime type. -/
structure UploadRequest where
  hasFile : Bool
  bugid : String
  fileName : String
  fileSize : Nat
  mimeType : String
  deriving DecidableEq, Repr

/-- The HTTP response the handler sends: status (Express defaults to 200
for a plain `res.send`) and body text. -/
structure UploadResponse where
  status : Nat
  body : String
  deriving DecidableEq, Repr

/-- Embedding of the `app.post('/upload')` handler (src/index.js lines
227-269). `root` is `DRIVE_ID`. Mirrors the code path by path:
no file → `400 No file uploaded`; ticket check reports an error → plain
`res.send` (status 200) of `'Failed to upload file: ' + message`; any
exception thrown by the folder step, `createResumableUpload` or
`uploadFile` lands in the catch block → `500 Error uploading file`;
otherwise the feedback string is built from the comment-post boolean and
sent with status 200. The second component is the trace of outward calls
performed. -/
def handleUpload (root : String) (o : Oracle) (req : UploadRequest) :
    UploadResponse × List Event :=
  if req.hasFile then
    let check := checkBugIdExists o.checkOutcome
    if check.error then
      ({ status := 200, body := "Failed to upload file: " ++ check.message },
       [Event.trackerCheck req.bugid])
    else
      match o.storeFailure with
      | some _ =>
          ({ status := 500, body := "Error uploading file" },
           [Event.trackerCheck req.bugid, Event.driveList])
      | none =>
          let folder := (createFolder root o.driveState req.bugid).2
          let evs := Event.trackerCheck req.bugid ::
            createFolderEvents o.driveState req.bugid
          match createResumableUpload o.sessionOutcome with
          | Except.error _ =>
              ({ status := 500, body := "Error uploading file" },
               evs ++ [Event.sessionInit req.fileName folder])
          | Except.ok uploadUrl =>
              match uploadFile o.uploadOutcome with
              | Except.error _ =>
                  ({ status := 500, body := "Error uploading file" },
                   evs ++ [Event.sessionInit req.fileName folder,
                           Event.byteStream uploadUrl])
              | Except.ok _ =>
                  let commentOk := (createBugzillaComment o.commentOutcome).2
                  let userFeedback := "File uploaded successfully.\n<br>" ++
                    (if commentOk then "Added comment to bugzilla"
                     else "Failed to comment to bugzilla")
                  ({ status := 200, body := userFeedback },
                   evs ++ [Event.sessionInit req.fileName folder,
                           Event.byteStream uploadUrl,
                           Event.trackerComment req.bugid])
  else
    ({ status := 400, body := "No file uploaded" }, [])

/-- The feedback string the handler builds on the success path, as a
function of the comment-post boolean only. -/
def successFeedback (commentOk : Bool) : String :=
  "File uploaded successfully.\n<br>" ++
    (if commentOk then "Added comment to bugzilla"
     else "Failed to comment to bugzilla")

/-- A sample drive holding one folder named `"ABC"` (used to exercise the
case-sensitivity of the name match). -/
def sampleDriveABC : DriveState :=
  { files := [{ id := "existing-1", name := "ABC",
                mimeType := folderMime, parents := ["ROOT"] }],
    nextId := 5 }

/-! ### Claim C1 -/

/-- C1: for every `POST /upload` request whose ticket id the tracker
reports as not existing (a non-ok response from the bug-detail endpoint),
the handler performs zero storage-side effects — no folder list, no folder
create, no session initiation, no byte streaming — and responds with the
caller-visible error message
`"Failed to upload file: Bug number does not appear to exist"`. -/
theorem c1_ticket_not_found_no_storage_effects
    (root : String) (o : Oracle) (req : UploadRequest) (s : Nat)
    (hfile : req.hasFile = true)
    (hout : o.checkOutcome = FetchOutcome.response s)
    (hnot : fetchOk s = false) :
    (handleUpload root o req).2.filter isStorageEffect = [] ∧
    (handleUpload root o req).1.body =
      "Failed to upload file: Bug number does not appear to exist" := by
  refine ⟨?_, ?_⟩ <;>
    simp [handleUpload, hfile, hout, checkBugIdExists, hnot, isStorageEffect]

/-- Instance of `c1_ticket_not_found_no_storage_effects` at a concrete
request (bug id `99999`, tracker answers 404). -/
theorem c1_witness :
    (handleUpload "ROOT"
      { checkOutcome := FetchOutcome.response 404
        driveState := { files := [], nextId := 0 }
        storeFailure := none
        sessionOutcome := RequestOutcome.transportError "unused"
        uploadOutcome := RequestOutcome.transportError "unused"
        commentOutcome := FetchOutcome.networkFailure }
      { hasFile := true, bugid := "99999", fileName := "report.log"
        fileSize := 1024, mimeType := "text/plain" }).2.filter
        isStorageEffect = [] ∧
    (handleUpload "ROOT"
      { checkOutcome := FetchOutcome.response 404
        driveState := { files := [], nextId := 0 }
        storeFailure := none
        sessionOutcome := RequestOutcome.transportError "unused"
        uploadOutcome := RequestOutcome.transportError "unused"
        commentOutcome := FetchOutcome.networkFailure }
      { hasFile := true, bugid := "99999", fileName := "report.log"
        fileSize := 1024, mimeType := "text/plain" }).1.body =
      "Failed to upload file: Bug number does not appear to exist" :=
  c1_ticket_not_found_no_storage_effects "ROOT" _ _ 404 rfl rfl (by decide)

/-! ### Claim C2 -/

/-- C2, counterexample: with a file attached and the tracker reporting the
bug as not existing (status 404), the handler responds with HTTP status
200, not the 500 the claim requires for a ticket-check failure: the code
sends the error message through a plain `res.send`, which keeps Express's
default 200 status. -/
theorem c2_counterexample_ticket_check_status :
    (handleUpload "ROOT"
      { checkOutcome := FetchOutcome.response 404
        driveState := { files := [], nextId := 0 }
        storeFailure := none
        sessionOutcome := RequestOutcome.transportError "unused"
        uploadOutcome := RequestOutcome.transportError "unused"
        commentOutcome := FetchOutcome.networkFailure }
      { hasFile := true, bugid := "77777", fileName := "report.log"
        fileSize := 1024, mimeType := "text/plain" }).1.status = 200 ∧
    (handleUpload "ROOT"
      { checkOutcome := FetchOutcome.response 404
        driveState := { files := [], nextId := 0 }
        storeFailure := none
        sessionOutcome := RequestOutcome.transportError "unused"
        uploadOutcome := RequestOutcome.transportError "unused"
        commentOutcome := FetchOutcome.networkFailure }
      { hasFile := true, bugid := "77777", fileName := "report.log"
        fileSize := 1024, mimeType := "text/plain" }).1.status ≠ 500 := by
  refine ⟨rfl, by decide⟩

/-- C2, amended: `POST /upload` responds 200 when the upload succeeds
(whatever the comment-post outcome), 400 when no file is attached, 500 for
a fatal failure of folder resolution, session initiation or byte
streaming, and — unlike the claim — 200 (with an error message) when the
ticket check fails. -/
theorem c2_amended_status_codes
    (root : String) (o : Oracle) (req : UploadRequest) :
    (req.hasFile = false → (handleUpload root o req).1.status = 400) ∧
    (req.hasFile = true →
      (checkBugIdExists o.checkOutcome).error = true →
      (handleUpload root o req).1.status = 200) ∧
    (req.hasFile = true →
      (checkBugIdExists o.checkOutcome).error = false →
      o.storeFailure.isSome = true →
      (handleUpload root o req).1.status = 500) ∧
    (req.hasFile = true →
      (checkBugIdExists o.checkOutcome).error = false →
      o.storeFailure = none →
      (∀ e, createResumableUpload o.sessionOutcome = Except.error e →
        (handleUpload root o req).1.status = 500) ∧
      (∀ url, createResumableUpload o.sessionOutcome = Except.ok url →
        (∀ e, uploadFile o.uploadOutcome = Except.error e →
          (handleUpload root o req).1.status = 500) ∧
        (∀ d, uploadFile o.uploadOutcome = Except.ok d →
          (handleUpload root o req).1.status = 200))) := by
  refine ⟨?_, ?_, ?_, ?_⟩
  · intro h
    simp [handleUpload, h]
  · intro hfile herr
    simp [handleUpload, hfile, herr]
  · intro hfile hok hsome
    rcases Option.isSome_iff_exists.mp hsome with ⟨m, hm⟩
    simp [handleUpload, hfile, hok, hm]
  · intro hfile hok hnone
    refine ⟨?_, ?_⟩
    · intro e he
      simp [handleUpload, hfile, hok, hnone, he]
    · intro url hurl
      refine ⟨?_, ?_⟩
      · intro e he
        simp [handleUpload, hfile, hok, hnone, hurl, he]
      · intro d hd
        simp [handleUpload, hfile, hok, hnone, hurl, hd]

/-- Instance of `c2_amended_status_codes` at a concrete oracle (every
stage succeeds, comment post answers 201), exercising the success branch. -/
theorem c2_amended_witness :
    (handleUpload "ROOT"
      { checkOutcome := FetchOutcome.response 200
        driveState := { files := [], nextId := 0 }
        storeFailure := none
        sessionOutcome := RequestOutcome.response
          { statusCode := 200, statusMessage := "OK"
            location := "https://session.example/u1", body := "" }
        uploadOutcome := RequestOutcome.response
          { statusCode := 200, statusMessage := "OK", location := ""
            body := "descriptor" }
        commentOutcome := FetchOutcome.response 201 }
      { hasFile := true, bugid := "12345", fileName := "report.log"
        fileSize := 1024, mimeType := "text/plain" }).1.status = 200 := by
  have h := c2_amended_status_codes "ROOT"
    { checkOutcome := FetchOutcome.response 200
      driveState := { files := [], nextId := 0 }
      storeFailure := none
      sessionOutcome := RequestOutcome.response
        { statusCode := 200, statusMessage := "OK"
          location := "https://session.example/u1", body := "" }
      uploadOutcome := RequestOutcome.response
        { statusCode := 200, statusMessage := "OK", location := ""
          body := "descriptor" }
      commentOutcome := FetchOutcome.response 201 }
    { hasFile := true, bugid := "12345", fileName := "report.log"
      fileSize := 1024, mimeType := "text/plain" }
  exact ((h.2.2.2 rfl (by decide) rfl).2 "https://session.example/u1"
    rfl).2 "descriptor" rfl

/-! ### Folder-resolution helper lemmas -/

/-- The store never mints the empty string as a fresh id. -/
theorem freshId_ne_empty (st : DriveState) : freshId st ≠ "" := by
  intro h
  have h2 := congrArg String.data h
  rw [freshId, String.data_append] at h2
  have h3 := List.append_eq_nil.mp h2
  exact absurd h3.1 (by decide)

/-- A non-empty result of `getFolderId` is the id of a folder-type entry of
the drive whose name is exactly the requested name. -/
theorem getFolderId_mem (st : DriveState) (name : String)
    (h : getFolderId st name ≠ "") :
    ∃ f ∈ st.files, f.mimeType = folderMime ∧ f.name = name ∧
      f.id = getFolderId st name := by
  unfold getFolderId at h ⊢
  cases hf : (listFolders st).find? (fun f => f.name == name) with
  | none => rw [hf] at h; exact absurd rfl h
  | some f =>
      have hmem : f ∈ st.files ∧ f.mimeType = folderMime := by
        simpa [listFolders] using List.mem_of_find?_eq_some hf
      have hp := List.find?_some hf
      exact ⟨f, hmem.1, hmem.2, eq_of_beq hp, rfl⟩

/-- When no folder-type entry carries exactly the requested name,
`getFolderId` returns `""`. -/
theorem getFolderId_eq_empty (st : DriveState) (name : String)
    (h : ∀ f ∈ st.files, f.mimeType = folderMime → f.name ≠ name) :
    getFolderId st name = "" := by
  unfold getFolderId
  cases hf : (listFolders st).find? (fun f => f.name == name) with
  | none => rfl
  | some f =>
      have hmem : f ∈ st.files ∧ f.mimeType = folderMime := by
        simpa [listFolders] using List.mem_of_find?_eq_some hf
      have hp := List.find?_some hf
      exact absurd (eq_of_beq hp) (h f hmem.1 hmem.2)

/-- On a well-formed drive (no empty ids), `getFolderId st name = ""` means
the name scan found nothing. -/
theorem find_eq_none_of_getFolderId_empty (st : DriveState) (name : String)
    (hwf : ∀ f ∈ st.files, f.id ≠ "")
    (h : getFolderId st name = "") :
    (listFolders st).find? (fun f => f.name == name) = none := by
  cases hf : (listFolders st).find? (fun f => f.name == name) with
  | none => rfl
  | some f =>
      unfold getFolderId at h
      rw [hf] at h
      have hmem : f ∈ st.files ∧ f.mimeType = folderMime := by
        simpa [listFolders] using List.mem_of_find?_eq_some hf
      exact absurd h (hwf f hmem.1)

/-- After creating the absent folder, `getFolderId` finds it and returns
the freshly minted id. -/
theorem getFolderId_after_create (root : String) (st : DriveState)
    (name : String)
    (hwf : ∀ f ∈ st.files, f.id ≠ "")
    (h : getFolderId st name = "") :
    getFolderId (driveCreate root st name).1 name = freshId st := by
  have hnone := find_eq_none_of_getFolderId_empty st name hwf h
  unfold getFolderId driveCreate
  have hfilter : listFolders
      { files := st.files ++
          [{ id := freshId st, name := name, mimeType := folderMime,
             parents := [root] }],
        nextId := st.nextId + 1 } =
      listFolders st ++
        [{ id := freshId st, name := name, mimeType := folderMime,
           parents := [root] }] := by
    simp [listFolders, List.filter_append]
  rw [hfilter, List.find?_append, hnone]
  simp [List.find?]

/-! ### Claim C3 -/

/-- C3: resolve-or-create is idempotent on a well-formed drive (no entry
with an empty id): running `createFolder` twice in sequence with the same
name returns the same folder id both times, and the second run leaves the
drive unchanged (no duplicate folder is created). -/
theorem c3_createFolder_idempotent (root : String) (st : DriveState)
    (name : String)
    (hwf : ∀ f ∈ st.files, f.id ≠ "") :
    (createFolder root (createFolder root st name).1 name).2 =
      (createFolder root st name).2 ∧
    (createFolder root (createFolder root st name).1 name).1 =
      (createFolder root st name).1 := by
  by_cases h : getFolderId st name = ""
  · have hid := getFolderId_after_create root st name hwf h
    have hfresh := freshId_ne_empty st
    have e1 : createFolder root st name = driveCreate root st name := by
      simp [createFolder, h]
    have e2 : createFolder root (driveCreate root st name).1 name =
        ((driveCreate root st name).1, freshId st) := by
      simp [createFolder, hid, hfresh]
    rw [e1, e2]
    exact ⟨rfl, rfl⟩
  · simp [createFolder, h]

/-- Instance of `c3_createFolder_idempotent` on the empty drive: both runs
return the same id and the second run creates nothing. -/
theorem c3_witness :
    (createFolder "ROOT"
        (createFolder "ROOT" { files := [], nextId := 0 } "12345").1
        "12345").2 =
      (createFolder "ROOT" { files := [], nextId := 0 } "12345").2 ∧
    (createFolder "ROOT"
        (createFolder "ROOT" { files := [], nextId := 0 } "12345").1
        "12345").1 =
      (createFolder "ROOT" { files := [], nextId := 0 } "12345").1 :=
  c3_createFolder_idempotent "ROOT" { files := [], nextId := 0 } "12345"
    (by simp)

/-! ### Claim C4 -/

/-- C4: the folder resolver matches the requested name against the
folder-type entries of the drive by exact, case-sensitive string equality —
a non-empty result is the id of a folder entry named exactly `name`, and if
no folder entry is named exactly `name` the scan yields `""` — and when no
entry matches, `createFolder` appends a new folder whose parent is the root
collection and returns that folder's freshly assigned id. -/
theorem c4_folder_resolver (root : String) (st : DriveState)
    (name : String) :
    (getFolderId st name ≠ "" →
      ∃ f ∈ st.files, f.mimeType = folderMime ∧ f.name = name ∧
        f.id = getFolderId st name) ∧
    ((∀ f ∈ st.files, f.mimeType = folderMime → f.name ≠ name) →
      getFolderId st name = "") ∧
    (getFolderId st name = "" →
      (createFolder root st name).2 = freshId st ∧
      (createFolder root st name).1.files = st.files ++
        [{ id := freshId st, name := name, mimeType := folderMime,
           parents := [root] }]) := by
  refine ⟨getFolderId_mem st name, getFolderId_eq_empty st name, ?_⟩
  intro h
  simp [createFolder, h, driveCreate]

/-- Instance of `c4_folder_resolver`: on a drive holding only a folder
named `"ABC"`, the lookup for `"abc"` matches nothing (case-sensitive), and
the subsequent create appends a folder named `"abc"` under the root. -/
theorem c4_witness :
    getFolderId sampleDriveABC "abc" = "" ∧
    (createFolder "ROOT" sampleDriveABC "abc").1.files =
      sampleDriveABC.files ++
        [{ id := freshId sampleDriveABC, name := "abc",
           mimeType := folderMime, parents := ["ROOT"] }] := by
  have h := c4_folder_resolver "ROOT" sampleDriveABC "abc"
  have h1 := h.2.1 (by decide)
  exact ⟨h1, (h.2.2 h1).2⟩

/-! ### Claim C5 -/

/-- C5: session initiation on a 2xx response yields the session URL taken
from the response's `location` field, and on any non-2xx response fails
with the session-creation error, whose message carries both the status
code and the response body. The embedding makes one attempt per outcome;
there is no retry construct. -/
theorem c5_session_initiation (resp : HttpResponse) :
    (status2xx resp.statusCode = true →
      createResumableUpload (RequestOutcome.response resp) =
        Except.ok resp.location) ∧
    (status2xx resp.statusCode = false →
      createResumableUpload (RequestOutcome.response resp) =
        Except.error ("Failed to create resumable upload session: "
          ++ toString resp.statusCode ++ " " ++ resp.statusMessage ++ " "
          ++ resp.body) ∧
      strContains ("Failed to create resumable upload session: "
          ++ toString resp.statusCode ++ " " ++ resp.statusMessage ++ " "
          ++ resp.body) (toString resp.statusCode) ∧
      strContains ("Failed to create resumable upload session: "
          ++ toString resp.statusCode ++ " " ++ resp.statusMessage ++ " "
          ++ resp.body) resp.body) := by
  constructor
  · intro h
    simp [createResumableUpload, h]
  · intro h
    refine ⟨by simp [createResumableUpload, h], ?_, ?_⟩
    · refine ⟨("Failed to create resumable upload session: ").data,
        (" " ++ resp.statusMessage ++ " " ++ resp.body).data, ?_⟩
      simp [String.data_append, List.append_assoc]
    · refine ⟨("Failed to create resumable upload session: "
          ++ toString resp.statusCode ++ " " ++ resp.statusMessage
          ++ " ").data, [], ?_⟩
      simp [String.data_append, List.append_assoc]

/-- Instance of `c5_session_initiation`: a 200 response with a session URL
resolves to that URL; a 403 response with body `"denied"` rejects with a
message carrying `403` and `"denied"`. -/
theorem c5_witness :
    createResumableUpload (RequestOutcome.response
      { statusCode := 200, statusMessage := "OK",
        location := "https://session.example/u2", body := "" }) =
      Except.ok "https://session.example/u2" ∧
    createResumableUpload (RequestOutcome.response
      { statusCode := 403, statusMessage := "Forbidden",
        location := "", body := "denied" }) =
      Except.error ("Failed to create resumable upload session: "
        ++ toString 403 ++ " " ++ "Forbidden" ++ " " ++ "denied") ∧
    strContains ("Failed to create resumable upload session: "
        ++ toString 403 ++ " " ++ "Forbidden" ++ " " ++ "denied")
      (toString 403) ∧
    strContains ("Failed to create resumable upload session: "
        ++ toString 403 ++ " " ++ "Forbidden" ++ " " ++ "denied")
      "denied" := by
  have hok := (c5_session_initiation
    { statusCode := 200, statusMessage := "OK",
      location := "https://session.example/u2", body := "" }).1 (by decide)
  have hfail := (c5_session_initiation
    { statusCode := 403, statusMessage := "Forbidden",
      location := "", body := "denied" }).2 (by decide)
  exact ⟨hok, hfail.1, hfail.2.1, hfail.2.2⟩

/-! ### Claim C6 -/

/-- C6: when the session-initiation response is non-2xx, no byte-streaming
call appears in the request's trace and the request terminates with HTTP
status 500. -/
theorem c6_no_stream_after_session_failure
    (root : String) (o : Oracle) (req : UploadRequest) (resp : HttpResponse)
    (hfile : req.hasFile = true)
    (hok : (checkBugIdExists o.checkOutcome).error = false)
    (hstore : o.storeFailure = none)
    (hsess : o.sessionOutcome = RequestOutcome.response resp)
    (h2xx : status2xx resp.statusCode = false) :
    (handleUpload root o req).2.filter isByteStream = [] ∧
    (handleUpload root o req).1.status = 500 := by
  have hses : createResumableUpload o.sessionOutcome =
      Except.error ("Failed to create resumable upload session: "
        ++ toString resp.statusCode ++ " " ++ resp.statusMessage ++ " "
        ++ resp.body) := by
    simp [hsess, createResumableUpload, h2xx]
  constructor
  · by_cases hfound : getFolderId o.driveState req.bugid = ""
    · simp [handleUpload, hfile, hok, hstore, hses, createFolderEvents,
        hfound, isByteStream]
    · simp [handleUpload, hfile, hok, hstore, hses, createFolderEvents,
        hfound, isByteStream]
  · simp [handleUpload, hfile, hok, hstore, hses]

/-- Instance of `c6_no_stream_after_session_failure` at a concrete oracle
whose session initiation answers 500. -/
theorem c6_witness :
    (handleUpload "ROOT"
      { checkOutcome := FetchOutcome.response 200
        driveState := { files := [], nextId := 0 }
        storeFailure := none
        sessionOutcome := RequestOutcome.response
          { statusCode := 500, statusMessage := "Internal Server Error"
            location := "", body := "boom" }
        uploadOutcome := RequestOutcome.transportError "unused"
        commentOutcome := FetchOutcome.networkFailure }
      { hasFile := true, bugid := "12345", fileName := "report.log"
        fileSize := 1024, mimeType := "text/plain" }).2.filter
        isByteStream = [] ∧
    (handleUpload "ROOT"
      { checkOutcome := FetchOutcome.response 200
        driveState := { files := [], nextId := 0 }
        storeFailure := none
        sessionOutcome := RequestOutcome.response
          { statusCode := 500, statusMessage := "Internal Server Error"
            location := "", body := "boom" }
        uploadOutcome := RequestOutcome.transportError "unused"
        commentOutcome := FetchOutcome.networkFailure }
      { hasFile := true, bugid := "12345", fileName := "report.log"
        fileSize := 1024, mimeType := "text/plain" }).1.status = 500 :=
  c6_no_stream_after_session_failure "ROOT" _ _
    { statusCode := 500, statusMessage := "Internal Server Error"
      location := "", body := "boom" }
    rfl (by decide) rfl rfl (by decide)

/-! ### Claim C7 -/

/-- C7, counterexample: for a 400 upload response with status message
`"Bad Request"` and body `"quota exceeded"`, the rejection message of
`uploadFile` is `"Failed to upload file: 400 Bad Request"` — it carries the
status, but the response body appears nowhere in it, contrary to the
claim. -/
theorem c7_counterexample_error_lacks_body :
    uploadFile (RequestOutcome.response
      { statusCode := 400, statusMessage := "Bad Request",
        location := "", body := "quota exceeded" }) =
      Except.error "Failed to upload file: 400 Bad Request" ∧
    ¬ strContains "Failed to upload file: 400 Bad Request"
      "quota exceeded" := by
  exact ⟨rfl, by decide⟩

/-- C7, amended: on a non-2xx terminal response the upload streamer
rejects with an error carrying the response status code and status message
(but not the response body); on a 2xx response it resolves with the parse
of the response body as the final file descriptor. -/
theorem c7_amended_upload_streamer (resp : HttpResponse) :
    (status2xx resp.statusCode = true →
      uploadFile (RequestOutcome.response resp) = Except.ok resp.body) ∧
    (status2xx resp.statusCode = false →
      uploadFile (RequestOutcome.response resp) =
        Except.error ("Failed to upload file: " ++ toString resp.statusCode
          ++ " " ++ resp.statusMessage) ∧
      strContains ("Failed to upload file: " ++ toString resp.statusCode
          ++ " " ++ resp.statusMessage) (toString resp.statusCode)) := by
  constructor
  · intro h
    simp [uploadFile, h]
  · intro h
    refine ⟨by simp [uploadFile, h], ?_⟩
    refine ⟨("Failed to upload file: ").data,
      (" " ++ resp.statusMessage).data, ?_⟩
    simp [String.data_append, List.append_assoc]

/-- Instance of `c7_amended_upload_streamer`: a 200 response resolves with
its body, a 403 response rejects with status and status message. -/
theorem c7_witness :
    uploadFile (RequestOutcome.response
      { statusCode := 200, statusMessage := "OK", location := "",
        body := "file-descriptor" }) = Except.ok "file-descriptor" ∧
    uploadFile (RequestOutcome.response
      { statusCode := 403, statusMessage := "Forbidden", location := "",
        body := "denied" }) =
      Except.error ("Failed to upload file: " ++ toString 403 ++ " "
        ++ "Forbidden") := by
  have hok := (c7_amended_upload_streamer
    { statusCode := 200, statusMessage := "OK", location := "",
      body := "file-descriptor" }).1 (by decide)
  have hfail := (c7_amended_upload_streamer
    { statusCode := 403, statusMessage := "Forbidden", location := "",
      body := "denied" }).2 (by decide)
  exact ⟨hok, hfail.1⟩

/-! ### Claim C8 -/

/-- C8: `createBugzillaComment` resolves to `true` exactly when the
tracker's response status is 201; every other outcome, a network failure
included, resolves to `false` (the rejection is caught, never re-thrown),
and on the success path of the handler a `false` comment outcome still
yields HTTP status 200 with the soft `"Failed to comment to bugzilla"`
suffix rather than a hard error. -/
theorem c8_postComment_iff_201_soft
    (root : String) (o : Oracle) (req : UploadRequest)
    (co : FetchOutcome) (url d : String)
    (hfile : req.hasFile = true)
    (hok : (checkBugIdExists o.checkOutcome).error = false)
    (hstore : o.storeFailure = none)
    (hsess : createResumableUpload o.sessionOutcome = Except.ok url)
    (hup : uploadFile o.uploadOutcome = Except.ok d)
    (hfail : (createBugzillaComment o.commentOutcome).2 = false) :
    ((createBugzillaComment co).2 = true ↔ co = FetchOutcome.response 201) ∧
    (handleUpload root o req).1.status = 200 ∧
    (handleUpload root o req).1.body =
      "File uploaded successfully.\n<br>" ++
        "Failed to comment to bugzilla" := by
  refine ⟨?_, ?_, ?_⟩
  · cases co with
    | response s => simp [createBugzillaComment]
    | networkFailure => simp [createBugzillaComment]
  · simp [handleUpload, hfile, hok, hstore, hsess, hup]
  · simp [handleUpload, hfile, hok, hstore, hsess, hup, hfail]

/-- Instance of `c8_postComment_iff_201_soft`: upload succeeds, comment
post answers 500 — the comment boolean is false, yet the response is a 200
carrying the soft failure text. -/
theorem c8_witness :
    ((createBugzillaComment (FetchOutcome.response 201)).2 = true ↔
      FetchOutcome.response 201 = FetchOutcome.response 201) ∧
    (handleUpload "ROOT"
      { checkOutcome := FetchOutcome.response 200
        driveState := { files := [], nextId := 0 }
        storeFailure := none
        sessionOutcome := RequestOutcome.response
          { statusCode := 200, statusMessage := "OK"
            location := "https://session.example/u3", body := "" }
        uploadOutcome := RequestOutcome.response
          { statusCode := 200, statusMessage := "OK", location := ""
            body := "descriptor" }
        commentOutcome := FetchOutcome.response 500 }
      { hasFile := true, bugid := "12345", fileName := "report.log"
        fileSize := 1024, mimeType := "text/plain" }).1.status = 200 ∧
    (handleUpload "ROOT"
      { checkOutcome := FetchOutcome.response 200
        driveState := { files := [], nextId := 0 }
        storeFailure := none
        sessionOutcome := RequestOutcome.response
          { statusCode := 200, statusMessage := "OK"
            location := "https://session.example/u3", body := "" }
        uploadOutcome := RequestOutcome.response
          { statusCode := 200, statusMessage := "OK", location := ""
            body := "descriptor" }
        commentOutcome := FetchOutcome.response 500 }
      { hasFile := true, bugid := "12345", fileName := "report.log"
        fileSize := 1024, mimeType := "text/plain" }).1.body =
      "File uploaded successfully.\n<br>" ++
        "Failed to comment to bugzilla" :=
  c8_postComment_iff_201_soft "ROOT" _ _
    (FetchOutcome.response 201) "https://session.example/u3" "descriptor"
    rfl (by decide) rfl rfl rfl (by decide)

/-! ### Claim C9 -/

/-- C9: on a fully successful upload with the comment posted (tracker
answers 201), the comment text sent to the tracker is exactly
`"A log has been successfully uploaded to the team's storage"` and
the user-facing response body is exactly
`"File uploaded successfully.\n<br>Added comment to bugzilla"` with
status 200. -/
theorem c9_success_messages
    (root : String) (o : Oracle) (req : UploadRequest) (url d : String)
    (hfile : req.hasFile = true)
    (hok : (checkBugIdExists o.checkOutcome).error = false)
    (hstore : o.storeFailure = none)
    (hsess : createResumableUpload o.sessionOutcome = Except.ok url)
    (hup : uploadFile o.uploadOutcome = Except.ok d)
    (hcomment : o.commentOutcome = FetchOutcome.response 201) :
    (createBugzillaComment o.commentOutcome).1.comment =
      "A log has been successfully uploaded to the team's storage" ∧
    (handleUpload root o req).1.body =
      "File uploaded successfully.\n<br>Added comment to bugzilla" ∧
    (handleUpload root o req).1.status = 200 := by
  refine ⟨rfl, ?_, ?_⟩
  · simp [handleUpload, hfile, hok, hstore, hsess, hup, hcomment,
      createBugzillaComment]
  · simp [handleUpload, hfile, hok, hstore, hsess, hup]

/-- Instance of `c9_success_messages` at the spec's scenario: bug `12345`
exists, `report.log` (1024 bytes, `text/plain`) is uploaded, every stage
answers success. -/
theorem c9_witness :
    (createBugzillaComment (FetchOutcome.response 201)).1.comment =
      "A log has been successfully uploaded to the team's storage" ∧
    (handleUpload "ROOT"
      { checkOutcome := FetchOutcome.response 200
        driveState := { files := [], nextId := 0 }
        storeFailure := none
        sessionOutcome := RequestOutcome.response
          { statusCode := 200, statusMessage := "OK"
            location := "https://session.example/u4", body := "" }
        uploadOutcome := RequestOutcome.response
          { statusCode := 200, statusMessage := "OK", location := ""
            body := "descriptor" }
        commentOutcome := FetchOutcome.response 201 }
      { hasFile := true, bugid := "12345", fileName := "report.log"
        fileSize := 1024, mimeType := "text/plain" }).1.body =
      "File uploaded successfully.\n<br>Added comment to bugzilla" ∧
    (handleUpload "ROOT"
      { checkOutcome := FetchOutcome.response 200
        driveState := { files := [], nextId := 0 }
        storeFailure := none
        sessionOutcome := RequestOutcome.response
          { statusCode := 200, statusMessage := "OK"
            location := "https://session.example/u4", body := "" }
        uploadOutcome := RequestOutcome.response
          { statusCode := 200, statusMessage := "OK", location := ""
            body := "descriptor" }
        commentOutcome := FetchOutcome.response 201 }
      { hasFile := true, bugid := "12345", fileName := "report.log"
        fileSize := 1024, mimeType := "text/plain" }).1.status = 200 :=
  c9_success_messages "ROOT" _ _ "https://session.example/u4" "descriptor"
    rfl (by decide) rfl rfl rfl rfl

/-! ### Claim C10 -/

/-- C10: the store file descriptor (hence the store-assigned file id) that
`uploadFile` resolves with is discarded by the handler: on every
successful upload the client-facing body equals the fixed
success/comment-status message, independent of the upload response's body;
consequently any file id not occurring in that fixed message does not
occur in the client-facing body. -/
theorem c10_file_id_discarded
    (root : String) (o : Oracle) (req : UploadRequest)
    (url fileId : String) (resp : HttpResponse)
    (hfile : req.hasFile = true)
    (hok : (checkBugIdExists o.checkOutcome).error = false)
    (hstore : o.storeFailure = none)
    (hsess : createResumableUpload o.sessionOutcome = Except.ok url)
    (hup : o.uploadOutcome = RequestOutcome.response resp)
    (h2xx : status2xx resp.statusCode = true) :
    (handleUpload root o req).1.body =
      successFeedback (createBugzillaComment o.commentOutcome).2 ∧
    (¬ strContains
        (successFeedback (createBugzillaComment o.commentOutcome).2)
        fileId →
      ¬ strContains (handleUpload root o req).1.body fileId) := by
  have hupOk : uploadFile o.uploadOutcome = Except.ok resp.body := by
    simp [hup, uploadFile, h2xx]
  have hbody : (handleUpload root o req).1.body =
      successFeedback (createBugzillaComment o.commentOutcome).2 := by
    simp [handleUpload, hfile, hok, hstore, hsess, hupOk, successFeedback]
  exact ⟨hbody, fun h => by rw [hbody]; exact h⟩

/-- Instance of `c10_file_id_discarded`: the upload response carries a
descriptor with file id `FILE123`, yet the client-facing body is the fixed
message and `FILE123` does not occur in it. -/
theorem c10_witness :
    (handleUpload "ROOT"
      { checkOutcome := FetchOutcome.response 200
        driveState := { files := [], nextId := 0 }
        storeFailure := none
        sessionOutcome := RequestOutcome.response
          { statusCode := 200, statusMessage := "OK"
            location := "https://session.example/u5", body := "" }
        uploadOutcome := RequestOutcome.response
          { statusCode := 200, statusMessage := "OK", location := ""
            body := "id FILE123 kind drive-file" }
        commentOutcome := FetchOutcome.response 201 }
      { hasFile := true, bugid := "12345", fileName := "report.log"
        fileSize := 1024, mimeType := "text/plain" }).1.body =
      successFeedback (createBugzillaComment
        (FetchOutcome.response 201)).2 ∧
    ¬ strContains
      (handleUpload "ROOT"
        { checkOutcome := FetchOutcome.response 200
          driveState := { files := [], nextId := 0 }
          storeFailure := none
          sessionOutcome := RequestOutcome.response
            { statusCode := 200, statusMessage := "OK"
              location := "https://session.example/u5", body := "" }
          uploadOutcome := RequestOutcome.response
            { statusCode := 200, statusMessage := "OK", location := ""
              body := "id FILE123 kind drive-file" }
          commentOutcome := FetchOutcome.response 201 }
        { hasFile := true, bugid := "12345", fileName := "report.log"
          fileSize := 1024, mimeType := "text/plain" }).1.body
      "FILE123" := by
  have h := c10_file_id_discarded "ROOT"
    { checkOutcome := FetchOutcome.response 200
      driveState := { files := [], nextId := 0 }
      storeFailure := none
      sessionOutcome := RequestOutcome.response
        { statusCode := 200, statusMessage := "OK"
          location := "https://session.example/u5", body := "" }
      uploadOutcome := RequestOutcome.response
        { statusCode := 200, statusMessage := "OK", location := ""
          body := "id FILE123 kind drive-file" }
      commentOutcome := FetchOutcome.response 201 }
    { hasFile := true, bugid := "12345", fileName := "report.log"
      fileSize := 1024, mimeType := "text/plain" }
    "https://session.example/u5" "FILE123"
    { statusCode := 200, statusMessage := "OK", location := ""
      body := "id FILE123 kind drive-file" }
    rfl (by decide) rfl rfl rfl (by decide)
  exact ⟨h.1, h.2 (by decide)⟩

end Logup
